import Mathlib

/-!
Verification of the NCBI GenBank retrieval pipeline
(`s26827_2025-2.py`): a shallow embedding of `NCBIRetriever.search_taxid`,
`NCBIRetriever.fetch_records` and `main`, with the remote Entrez service
modelled as oracles supplying the responses, and theorems about the
length filter, the session state machine and the artifact-producing
pipeline.
-/

namespace S26827

/-- A parsed GenBank sequence record (`SeqIO.parse` output): the fields the
pipeline reads are `record.id`, `record.seq` (its length) and
`record.description`. -/
structure SeqRecord where
  id : String
  seq : String
  description : String
  deriving Repr, DecidableEq

/-- The chained comparison `min_length <= len(rec.seq) <= max_length` from
`main` (lines 99-102). Lengths entered by the user are Python ints, so the
bounds are modelled as `Int`. -/
def inRange (min_length max_length : Int) (rec : SeqRecord) : Bool :=
  decide (min_length ≤ (rec.seq.length : Int)) &&
    decide ((rec.seq.length : Int) ≤ max_length)

/-- The list comprehension of `main` lines 99-102:
`[rec for rec in sample_records if min_length <= len(rec.seq) <= max_length]`. -/
def filterRecords (min_length max_length : Int)
    (records : List SeqRecord) : List SeqRecord :=
  records.filter (inRange min_length max_length)

/-- The attribute state of an `NCBIRetriever` instance: `webenv`,
`query_key` and `count` are set only by a successful `search_taxid`
(lines 44-46), so each is `Option`-valued (`none` = attribute absent,
mirroring the `hasattr` checks on line 55). -/
structure RetrieverState where
  webenv : Option String
  query_key : Option String
  count : Option Nat
  deriving Repr, DecidableEq

/-- A fresh `NCBIRetriever` (no search performed yet): none of the three
attributes exists. -/
def initState : RetrieverState := ⟨none, none, none⟩

/-- The parsed `Entrez.esearch` response used by `search_taxid`
(lines 35-45): `Count`, `WebEnv`, `QueryKey`. -/
structure SearchResponse where
  count : Nat
  webEnv : String
  queryKey : String
  deriving Repr, DecidableEq

/-- Outcome of the two remote calls made by `search_taxid`: either some
call in the `try` block raised (taxonomy lookup, esearch, or parsing), or
both succeeded, yielding the organism name and the esearch response. -/
inductive SearchOutcome where
  | err
  | ok (organism : String) (resp : SearchResponse)
  deriving Repr, DecidableEq

/-- `NCBIRetriever.search_taxid` (lines 25-52) as a state transition: given
the current attribute state and the remote outcome, returns the new state
and the Python return value (`None` or the positive count). On an
exception (line 50-52) or a zero count (lines 38-40) the method returns
`None` *before* reaching the attribute assignments on lines 44-46, so the
state is unchanged. -/
def search_taxid (st : RetrieverState) (o : SearchOutcome) :
    RetrieverState × Option Nat :=
  match o with
  | .err => (st, none)
  | .ok _organism resp =>
      if resp.count = 0 then
        (st, none)
      else
        (⟨some resp.webEnv, some resp.queryKey, some resp.count⟩,
          some resp.count)

/-- The argument record of the `Entrez.efetch` call issued by
`fetch_records` (lines 61-69). -/
structure FetchCall where
  db : String
  rettype : String
  retmode : String
  retstart : Int
  retmax : Int
  webenv : String
  query_key : String
  deriving Repr, DecidableEq

/-- A remote Entrez call, so a trace can distinguish batch fetches from
searches. `fetch_records` issues only `fetchBatch` calls. -/
inductive RemoteCall where
  | taxonomy (taxid : String)
  | searchNucleotide (term : String)
  | fetchBatch (c : FetchCall)
  deriving Repr, DecidableEq

/-- Outcome of the efetch-and-parse in `fetch_records`: either some step
raised (network or parse failure, caught on line 77), or a record list was
parsed. -/
inductive FetchResponse where
  | err
  | ok (records : List SeqRecord)
  deriving Repr, DecidableEq

/-- The record list carried by a `FetchResponse` (empty on error). -/
def FetchResponse.recs : FetchResponse → List SeqRecord
  | .err => []
  | .ok records => records

/-- How `fetch_records` signalled its result to the user: normally, via the
diagnostic on line 56 (no prior search), or via the diagnostic on line 78
(caught network/parse exception). -/
inductive FetchSignal where
  | ok
  | noActiveSession
  | fetchError
  deriving Repr, DecidableEq

/-- What one `fetch_records` invocation did: the remote calls it issued,
the records it returned, and the signal it gave. -/
structure FetchResult where
  calls : List RemoteCall
  records : List SeqRecord
  signal : FetchSignal
  deriving Repr, DecidableEq

/-- `NCBIRetriever.fetch_records` (lines 54-79): if either stored token
attribute is absent (the `hasattr` guard on line 55) it prints the
no-session diagnostic and returns `[]` without any remote call; otherwise
it issues one efetch with `retmax = min(max_records, 500)` (line 60)
reusing the stored `webenv`/`query_key`, and on any exception prints the
fetch-error diagnostic and returns `[]`. -/
def fetch_records (st : RetrieverState) (start max_records : Int)
    (oracle : FetchCall → FetchResponse) : FetchResult :=
  match st.webenv, st.query_key with
  | some we, some qk =>
      let batch_size := min max_records 500
      let call : FetchCall :=
        ⟨"nucleotide", "gb", "text", start, batch_size, we, qk⟩
      match oracle call with
      | .err => ⟨[.fetchBatch call], [], .fetchError⟩
      | .ok recs => ⟨[.fetchBatch call], recs, .ok⟩
  | _, _ => ⟨[], [], .noActiveSession⟩

/-- The single efetch argument record built by `fetch_records` on an
active session (lines 60-69). -/
def activeCall (we qk : String) (start max_records : Int) : FetchCall :=
  ⟨"nucleotide", "gb", "text", start, min max_records 500, we, qk⟩

/-- A row of the CSV report (lines 112-118): a projection of a record. -/
structure ReportRow where
  accession : String
  length : Nat
  description : String
  deriving Repr, DecidableEq

/-- The dict built for each filtered record on lines 114-118. -/
def toReportRow (rec : SeqRecord) : ReportRow :=
  ⟨rec.id, rec.seq.length, rec.description⟩

/-- The CSV file written by `df.to_csv(csv_file, index=False)` (line 122).
`pd.DataFrame([])` has no columns, so when `csv_data` is empty the file is
written without the `Accession,Length,Description` header line:
`hasHeader` records whether the header is present. -/
structure CsvFile where
  hasHeader : Bool
  rows : List ReportRow
  deriving Repr, DecidableEq

/-- A file produced by `main`: the GenBank archive (line 107), the CSV
report (line 122), or the chart (line 137). The chart artifact carries the
rows plotted (the source plots them sorted by descending length;
the order is not modelled as no property here depends on it). -/
inductive Artifact where
  | archive (path : String) (records : List SeqRecord)
  | csvReport (path : String) (file : CsvFile)
  | chart (path : String) (rows : List ReportRow)
  deriving Repr, DecidableEq

/-- How a run of `main` ended: early return on line 94 (`not count`),
uncaught `KeyError` from `df_sorted = df.sort_values(by="Length", ...)`
(line 126, reached with an empty DataFrame, which has no `Length` column),
or normal completion. -/
inductive Outcome where
  | exitedNoRecords
  | crashedChart
  | completed
  deriving Repr, DecidableEq

/-- The observable behaviour of one run of `main`: batch-fetch remote
calls issued, files written, status lines printed, and how it ended. -/
structure MainRun where
  fetchCalls : List RemoteCall
  artifacts : List Artifact
  prints : List String
  outcome : Outcome
  deriving Repr, DecidableEq

/-- Python truthiness of the `search_taxid` return value, as tested by
`if not count:` on line 92 (`None` and `0` are falsy). -/
def isFalsy : Option Nat → Bool
  | none => true
  | some n => n == 0

/-- Lines 96-140 of `main`, the part after the count guard, given the
result of the single `fetch_records(start=0, max_records=20)` call: filter
by length, write the archive (line 107) and the CSV (line 122), then run
the chart step, which raises `KeyError` when the DataFrame is empty
(`sort_values(by="Length")` on a columnless frame, line 126) and
otherwise writes the chart file (line 137). -/
def mainOutputs (taxid : String) (min_length max_length : Int)
    (fr : FetchResult) : MainRun :=
  let filtered := filterRecords min_length max_length fr.records
  let rows := filtered.map toReportRow
  let archivePath := "taxid_" ++ taxid ++ "_sample.gb"
  let csvPath := "taxid_" ++ taxid ++ "_report.csv"
  let chartPath := "taxid_" ++ taxid ++ "_lengths.png"
  let csv : CsvFile := ⟨!rows.isEmpty, rows⟩
  let baseArtifacts :=
    [Artifact.archive archivePath filtered, Artifact.csvReport csvPath csv]
  let basePrints :=
    ["Fetching sample records...",
      "Filtered to " ++ toString filtered.length ++
        " records within length range.",
      "Saved filtered sample records to " ++ archivePath,
      "Saved CSV report to " ++ csvPath]
  if rows.isEmpty then
    { fetchCalls := fr.calls, artifacts := baseArtifacts,
      prints := basePrints, outcome := .crashedChart }
  else
    { fetchCalls := fr.calls,
      artifacts := baseArtifacts ++ [Artifact.chart chartPath rows],
      prints := basePrints ++ ["Saved chart to " ++ chartPath],
      outcome := .completed }

/-- `main` (lines 81-140) over the user inputs and the remote oracles:
search the taxid; if the returned count is falsy (`None` or `0`, line 92)
print the exit line and return with nothing fetched and nothing written;
otherwise run the fetch/filter/output steps of `mainOutputs`. -/
def runMain (taxid : String) (min_length max_length : Int)
    (searchO : SearchOutcome) (fetchO : FetchCall → FetchResponse) :
    MainRun :=
  let r1 := search_taxid initState searchO
  if isFalsy r1.2 then
    { fetchCalls := [], artifacts := [],
      prints := ["No records found. Exiting."],
      outcome := .exitedNoRecords }
  else
    mainOutputs taxid min_length max_length (fetch_records r1.1 0 20 fetchO)

/-- The number of records an artifact is derived from: records serialized
into the archive, rows of the CSV, points of the chart. -/
def artifactSize : Artifact → Nat
  | .archive _ records => records.length
  | .csvReport _ file => file.rows.length
  | .chart _ rows => rows.length

/-- A short sample record (sequence length 4). -/
def recA : SeqRecord := ⟨"A1", "ACGT", "first"⟩

/-- Another sample record (sequence length 10). -/
def recB : SeqRecord := ⟨"B2", "ACGTACGTAC", "second"⟩

/-- C1: for every record list and every pair of bounds, the length filter
keeps exactly the records whose sequence length lies between the bounds
(both ends inclusive) and no others, it preserves the relative order of
the input (the output is a sublist of the input), and the empty input
yields the empty output. -/
theorem C1_filter_exact (min_length max_length : Int)
    (records : List SeqRecord) :
    (∀ r, r ∈ filterRecords min_length max_length records ↔
        r ∈ records ∧ min_length ≤ (r.seq.length : Int) ∧
          (r.seq.length : Int) ≤ max_length)
    ∧ List.Sublist (filterRecords min_length max_length records) records
    ∧ filterRecords min_length max_length [] = [] := by
  refine ⟨fun r => ?_, List.filter_sublist records, rfl⟩
  simp [filterRecords, List.mem_filter, inRange, and_assoc]

/-- C8: the length filter is idempotent: filtering an already-filtered
list with the same criteria returns the same list. -/
theorem C8_filter_idempotent (min_length max_length : Int)
    (records : List SeqRecord) (h : min_length ≤ max_length) :
    filterRecords min_length max_length
        (filterRecords min_length max_length records) =
      filterRecords min_length max_length records := by
  simp [filterRecords, List.filter_filter]

/-- Witness for C8 at concrete criteria 1 ≤ 5 and a concrete record
list. -/
theorem C8_filter_idempotent_witness :
    (1 : Int) ≤ 5 ∧
      filterRecords 1 5 (filterRecords 1 5 [recA, recB]) =
        filterRecords 1 5 [recA, recB] :=
  ⟨by decide, C8_filter_idempotent 1 5 [recA, recB] (by decide)⟩

/-- C2: whenever the remote search reports a total count of zero, the run
halts after the search step: no batch-fetch call is issued and no output
artifact (archive, CSV, or chart) is produced. -/
theorem C2_zero_count_halts (taxid : String) (min_length max_length : Int)
    (organism : String) (resp : SearchResponse)
    (fetchO : FetchCall → FetchResponse) (h : resp.count = 0) :
    (runMain taxid min_length max_length (.ok organism resp) fetchO).fetchCalls
        = []
    ∧ (runMain taxid min_length max_length (.ok organism resp) fetchO).artifacts
        = []
    ∧ (runMain taxid min_length max_length (.ok organism resp) fetchO).outcome
        = .exitedNoRecords := by
  simp [runMain, search_taxid, isFalsy, h]

/-- Witness for C2: a concrete zero-count search response. -/
theorem C2_zero_count_halts_witness :
    (⟨0, "w", "k"⟩ : SearchResponse).count = 0 ∧
      ((runMain "9606" 1 5 (.ok "Homo sapiens" ⟨0, "w", "k"⟩)
            (fun _ => .ok [recA])).fetchCalls = []
        ∧ (runMain "9606" 1 5 (.ok "Homo sapiens" ⟨0, "w", "k"⟩)
            (fun _ => .ok [recA])).artifacts = []
        ∧ (runMain "9606" 1 5 (.ok "Homo sapiens" ⟨0, "w", "k"⟩)
            (fun _ => .ok [recA])).outcome = .exitedNoRecords) :=
  ⟨rfl, C2_zero_count_halts "9606" 1 5 "Homo sapiens" ⟨0, "w", "k"⟩
    (fun _ => .ok [recA]) rfl⟩

/-- C3: calling `fetch_records` on a state where the `webenv` or the
`query_key` attribute is absent (no prior valid search) fails fast with
the no-active-session signal, issues no remote call, and returns the empty
record list. -/
theorem C3_no_session_fails_fast (st : RetrieverState)
    (start max_records : Int) (oracle : FetchCall → FetchResponse)
    (h : st.webenv = none ∨ st.query_key = none) :
    (fetch_records st start max_records oracle).signal = .noActiveSession
    ∧ (fetch_records st start max_records oracle).calls = []
    ∧ (fetch_records st start max_records oracle).records = [] := by
  obtain ⟨we, qk, cnt⟩ := st
  rcases h with h | h <;> simp only at h <;> subst h
  · exact ⟨rfl, rfl, rfl⟩
  · cases we <;> exact ⟨rfl, rfl, rfl⟩

/-- Witness for C3: a fresh retriever state with no attributes set. -/
theorem C3_no_session_fails_fast_witness :
    (initState.webenv = none ∨ initState.query_key = none) ∧
      ((fetch_records initState 0 20 (fun _ => .ok [recA])).signal
          = .noActiveSession
        ∧ (fetch_records initState 0 20 (fun _ => .ok [recA])).calls = []
        ∧ (fetch_records initState 0 20 (fun _ => .ok [recA])).records
          = []) :=
  ⟨Or.inl rfl,
    C3_no_session_fails_fast initState 0 20 (fun _ => .ok [recA])
      (Or.inl rfl)⟩

/-- Helper: on a state with both tokens present, `fetch_records` evaluates
to a result whose call trace is exactly the one efetch, whose records are
those of the oracle response, and whose signal reflects the response. -/
theorem fetch_records_active (we qk : String) (cnt : Option Nat)
    (start max_records : Int) (oracle : FetchCall → FetchResponse) :
    fetch_records ⟨some we, some qk, cnt⟩ start max_records oracle =
      ⟨[.fetchBatch (activeCall we qk start max_records)],
        (oracle (activeCall we qk start max_records)).recs,
        match oracle (activeCall we qk start max_records) with
        | .err => .fetchError
        | .ok _ => .ok⟩ := by
  show (match oracle (activeCall we qk start max_records) with
    | .err => (⟨_, [], .fetchError⟩ : FetchResult)
    | .ok recs => ⟨_, recs, .ok⟩) = _
  cases oracle (activeCall we qk start max_records) <;> rfl

/-- C7: on a state holding session tokens, `fetch_records` issues exactly
one remote call — a batch fetch, never a search — whose `retmax` is
`min(max_records, 500)`, whose `retstart` is the given offset, and whose
`webenv`/`query_key` are the stored session tokens. -/
theorem C7_fetch_uses_session (we qk : String) (st : RetrieverState)
    (start max_records : Int) (oracle : FetchCall → FetchResponse)
    (h1 : st.webenv = some we) (h2 : st.query_key = some qk) :
    ∃ c : FetchCall,
      (fetch_records st start max_records oracle).calls
          = [RemoteCall.fetchBatch c]
      ∧ c.retmax = min max_records 500
      ∧ c.retstart = start
      ∧ c.webenv = we
      ∧ c.query_key = qk
      ∧ c.db = "nucleotide" := by
  obtain ⟨we', qk', cnt⟩ := st
  simp only at h1 h2
  subst h1; subst h2
  exact ⟨activeCall we qk start max_records,
    by rw [fetch_records_active], rfl, rfl, rfl, rfl, rfl⟩

/-- Witness for C7: a concrete session state with tokens "w"/"k". -/
theorem C7_fetch_uses_session_witness :
    ((⟨some "w", some "k", some 7⟩ : RetrieverState).webenv = some "w"
        ∧ (⟨some "w", some "k", some 7⟩ : RetrieverState).query_key
          = some "k")
    ∧ ∃ c : FetchCall,
        (fetch_records ⟨some "w", some "k", some 7⟩ 0 20
            (fun _ => .ok [recA])).calls = [RemoteCall.fetchBatch c]
        ∧ c.retmax = min 20 500
        ∧ c.retstart = 0
        ∧ c.webenv = "w"
        ∧ c.query_key = "k"
        ∧ c.db = "nucleotide" :=
  ⟨⟨rfl, rfl⟩,
    C7_fetch_uses_session "w" "k" ⟨some "w", some "k", some 7⟩ 0 20
      (fun _ => .ok [recA]) rfl rfl⟩

/-- C9: a later failed or zero-count search leaves previously stored
session attributes intact: starting from any state, a successful search
stores the tokens, a subsequent erroring search or zero-count search
returns the state unchanged, and `fetch_records` on that state still
proceeds — it issues a batch fetch using the stale tokens instead of
reporting a missing session. -/
theorem C9_stale_session (st : RetrieverState)
    (organism organism2 : String) (resp resp2 : SearchResponse)
    (start max_records : Int) (oracle : FetchCall → FetchResponse)
    (h1 : resp.count ≠ 0) (h2 : resp2.count = 0) :
    (search_taxid st (.ok organism resp)).1
        = ⟨some resp.webEnv, some resp.queryKey, some resp.count⟩
    ∧ (search_taxid (search_taxid st (.ok organism resp)).1 .err).1
        = (search_taxid st (.ok organism resp)).1
    ∧ (search_taxid (search_taxid st (.ok organism resp)).1
          (.ok organism2 resp2)).1
        = (search_taxid st (.ok organism resp)).1
    ∧ (fetch_records (search_taxid st (.ok organism resp)).1
          start max_records oracle).signal ≠ .noActiveSession
    ∧ ∃ c : FetchCall,
        (fetch_records (search_taxid st (.ok organism resp)).1
            start max_records oracle).calls = [RemoteCall.fetchBatch c]
        ∧ c.webenv = resp.webEnv
        ∧ c.query_key = resp.queryKey := by
  have hst : (search_taxid st (.ok organism resp)).1
      = ⟨some resp.webEnv, some resp.queryKey, some resp.count⟩ := by
    simp [search_taxid, h1]
  refine ⟨hst, by simp [search_taxid], by simp [search_taxid, h2], ?_, ?_⟩
  · rw [hst, fetch_records_active]
    cases oracle (activeCall resp.webEnv resp.queryKey start max_records) <;>
      simp
  · rw [hst, fetch_records_active]
    exact ⟨activeCall resp.webEnv resp.queryKey start max_records,
      rfl, rfl, rfl⟩

/-- Witness for C9: a successful search storing tokens "w"/"k", followed
by an erroring search and a zero-count search. -/
theorem C9_stale_session_witness :
    ((⟨3, "w", "k"⟩ : SearchResponse).count ≠ 0
        ∧ (⟨0, "w2", "k2"⟩ : SearchResponse).count = 0)
    ∧ ((search_taxid initState (.ok "Homo sapiens" ⟨3, "w", "k"⟩)).1
          = ⟨some "w", some "k", some 3⟩
      ∧ (search_taxid
            (search_taxid initState (.ok "Homo sapiens" ⟨3, "w", "k"⟩)).1
            .err).1
          = (search_taxid initState (.ok "Homo sapiens" ⟨3, "w", "k"⟩)).1
      ∧ (search_taxid
            (search_taxid initState (.ok "Homo sapiens" ⟨3, "w", "k"⟩)).1
            (.ok "none" ⟨0, "w2", "k2"⟩)).1
          = (search_taxid initState (.ok "Homo sapiens" ⟨3, "w", "k"⟩)).1
      ∧ (fetch_records
            (search_taxid initState (.ok "Homo sapiens" ⟨3, "w", "k"⟩)).1
            0 20 (fun _ => .ok [recA])).signal ≠ .noActiveSession
      ∧ ∃ c : FetchCall,
          (fetch_records
              (search_taxid initState (.ok "Homo sapiens" ⟨3, "w", "k"⟩)).1
              0 20 (fun _ => .ok [recA])).calls = [RemoteCall.fetchBatch c]
          ∧ c.webenv = "w"
          ∧ c.query_key = "k") :=
  ⟨⟨by decide, rfl⟩,
    C9_stale_session initState "Homo sapiens" "none" ⟨3, "w", "k"⟩
      ⟨0, "w2", "k2"⟩ 0 20 (fun _ => .ok [recA]) (by decide) rfl⟩

/-- Helper: when the search succeeds with a nonzero count, `runMain` runs
the output steps on the batch fetched with the stored tokens at
`start=0, max_records=20`. -/
theorem runMain_success (taxid organism : String)
    (min_length max_length : Int) (resp : SearchResponse)
    (fetchO : FetchCall → FetchResponse) (hc : resp.count ≠ 0) :
    runMain taxid min_length max_length (.ok organism resp) fetchO =
      mainOutputs taxid min_length max_length
        (fetch_records ⟨some resp.webEnv, some resp.queryKey,
          some resp.count⟩ 0 20 fetchO) := by
  simp [runMain, search_taxid, isFalsy, hc]

/-- Helper: `mainOutputs` reports exactly the remote calls of the fetch
result it is given. -/
theorem mainOutputs_calls (taxid : String) (min_length max_length : Int)
    (fr : FetchResult) :
    (mainOutputs taxid min_length max_length fr).fetchCalls = fr.calls := by
  rw [mainOutputs]
  split <;> rfl

/-- Helper: when filtering leaves nothing, `mainOutputs` writes an empty
archive and a header-less empty CSV, prints the zero-record report, and
aborts at the chart step. -/
theorem mainOutputs_empty (taxid : String) (min_length max_length : Int)
    (fr : FetchResult)
    (h : filterRecords min_length max_length fr.records = []) :
    mainOutputs taxid min_length max_length fr =
      { fetchCalls := fr.calls,
        artifacts :=
          [.archive ("taxid_" ++ taxid ++ "_sample.gb") [],
            .csvReport ("taxid_" ++ taxid ++ "_report.csv") ⟨false, []⟩],
        prints :=
          ["Fetching sample records...",
            "Filtered to 0 records within length range.",
            "Saved filtered sample records to " ++
              ("taxid_" ++ taxid ++ "_sample.gb"),
            "Saved CSV report to " ++ ("taxid_" ++ taxid ++ "_report.csv")],
        outcome := .crashedChart } := by
  rw [mainOutputs]
  simp only [h]
  rfl

/-- Helper: every artifact produced by `mainOutputs` is derived from at
most as many records as the fetch returned. -/
theorem mainOutputs_size (taxid : String) (min_length max_length : Int)
    (fr : FetchResult) (a : Artifact)
    (ha : a ∈ (mainOutputs taxid min_length max_length fr).artifacts) :
    artifactSize a ≤ fr.records.length := by
  have hfil : (filterRecords min_length max_length fr.records).length ≤
      fr.records.length := List.length_filter_le _ _
  rw [mainOutputs] at ha
  split at ha <;>
    simp only [List.mem_cons, List.mem_append, List.mem_singleton,
      List.not_mem_nil, or_false] at ha
  · rcases ha with rfl | rfl <;>
      simpa [artifactSize] using hfil
  · rcases ha with (rfl | rfl) | rfl <;>
      simpa [artifactSize] using hfil

/-- C4: a network or parse failure during the batch fetch makes the
fetcher return the empty record list with the fetch-error signal (no
exception escapes it: it still yields a result), and the pipeline
continues with zero records, reporting the zero-record outcome and
writing an empty archive and CSV. -/
theorem C4_fetch_error_continues (taxid organism : String)
    (min_length max_length : Int) (resp : SearchResponse)
    (fetchO : FetchCall → FetchResponse)
    (hc : resp.count ≠ 0) (hf : ∀ c, fetchO c = .err) :
    (fetch_records ⟨some resp.webEnv, some resp.queryKey, some resp.count⟩
          0 20 fetchO).records = []
    ∧ (fetch_records ⟨some resp.webEnv, some resp.queryKey,
          some resp.count⟩ 0 20 fetchO).signal = .fetchError
    ∧ "Filtered to 0 records within length range."
        ∈ (runMain taxid min_length max_length (.ok organism resp)
            fetchO).prints
    ∧ Artifact.archive ("taxid_" ++ taxid ++ "_sample.gb") []
        ∈ (runMain taxid min_length max_length (.ok organism resp)
            fetchO).artifacts
    ∧ Artifact.csvReport ("taxid_" ++ taxid ++ "_report.csv") ⟨false, []⟩
        ∈ (runMain taxid min_length max_length (.ok organism resp)
            fetchO).artifacts := by
  have hfr : fetch_records ⟨some resp.webEnv, some resp.queryKey,
      some resp.count⟩ 0 20 fetchO =
        ⟨[.fetchBatch (activeCall resp.webEnv resp.queryKey 0 20)], [],
          .fetchError⟩ := by
    rw [fetch_records_active, hf]
    rfl
  have hrun := runMain_success taxid organism min_length max_length resp
    fetchO hc
  rw [hfr] at hrun
  rw [hrun, mainOutputs_empty taxid min_length max_length
    ⟨[.fetchBatch (activeCall resp.webEnv resp.queryKey 0 20)], [],
      .fetchError⟩ rfl]
  refine ⟨by rw [hfr], by rw [hfr], ?_, ?_, ?_⟩ <;> simp

/-- Witness for C4: a concrete run whose fetch oracle always fails. -/
theorem C4_fetch_error_continues_witness :
    ((⟨5, "w", "k"⟩ : SearchResponse).count ≠ 0
        ∧ ∀ c : FetchCall, (fun _ => FetchResponse.err) c
            = FetchResponse.err)
    ∧ ((fetch_records ⟨some "w", some "k", some 5⟩ 0 20
            (fun _ => .err)).records = []
      ∧ (fetch_records ⟨some "w", some "k", some 5⟩ 0 20
            (fun _ => .err)).signal = .fetchError
      ∧ "Filtered to 0 records within length range."
          ∈ (runMain "9606" 1 5 (.ok "Homo sapiens" ⟨5, "w", "k"⟩)
              (fun _ => .err)).prints
      ∧ Artifact.archive ("taxid_" ++ "9606" ++ "_sample.gb") []
          ∈ (runMain "9606" 1 5 (.ok "Homo sapiens" ⟨5, "w", "k"⟩)
              (fun _ => .err)).artifacts
      ∧ Artifact.csvReport ("taxid_" ++ "9606" ++ "_report.csv")
            ⟨false, []⟩
          ∈ (runMain "9606" 1 5 (.ok "Homo sapiens" ⟨5, "w", "k"⟩)
              (fun _ => .err)).artifacts) :=
  ⟨⟨by decide, fun _ => rfl⟩,
    C4_fetch_error_continues "9606" "Homo sapiens" 1 5 ⟨5, "w", "k"⟩
      (fun _ => .err) (by decide) (fun _ => rfl)⟩

/-- C10: in every run whose search succeeds, exactly one batch-fetch call
is issued, with offset 0 and `retmax = 20`; hence, whenever the remote
service returns at most the requested number of records, every artifact
(archive, CSV, chart) is derived from at most 20 records, regardless of
the reported total count. -/
theorem C10_sample_cap (taxid organism : String)
    (min_length max_length : Int) (resp : SearchResponse)
    (fetchO : FetchCall → FetchResponse)
    (hc : resp.count ≠ 0)
    (hb : ∀ c : FetchCall,
      (((fetchO c).recs.length : Int)) ≤ max c.retmax 0) :
    ∃ c : FetchCall,
      (runMain taxid min_length max_length (.ok organism resp)
          fetchO).fetchCalls = [RemoteCall.fetchBatch c]
      ∧ c.retstart = 0
      ∧ c.retmax = 20
      ∧ ∀ a ∈ (runMain taxid min_length max_length (.ok organism resp)
          fetchO).artifacts, artifactSize a ≤ 20 := by
  have hrun := runMain_success taxid organism min_length max_length resp
    fetchO hc
  rw [fetch_records_active] at hrun
  refine ⟨activeCall resp.webEnv resp.queryKey 0 20, ?_, rfl, rfl, ?_⟩
  · rw [hrun, mainOutputs_calls]
  · intro a ha
    rw [hrun] at ha
    have hsz : artifactSize a ≤
        ((fetchO (activeCall resp.webEnv resp.queryKey 0 20)).recs).length :=
      mainOutputs_size _ _ _ _ _ ha
    have hcap := hb (activeCall resp.webEnv resp.queryKey 0 20)
    have hmax : max (activeCall resp.webEnv resp.queryKey 0 20).retmax 0
        = (20 : Int) := rfl
    rw [hmax] at hcap
    omega

/-- Witness for C10: a concrete successful search and an oracle that
always returns the empty batch (so it never exceeds `retmax`). -/
theorem C10_sample_cap_witness :
    ((⟨5, "w", "k"⟩ : SearchResponse).count ≠ 0
        ∧ ∀ c : FetchCall,
          ((((fun _ => FetchResponse.ok []) c).recs.length : Int)) ≤
            max c.retmax 0)
    ∧ ∃ c : FetchCall,
        (runMain "9606" 1 5 (.ok "Homo sapiens" ⟨5, "w", "k"⟩)
            (fun _ => .ok [])).fetchCalls = [RemoteCall.fetchBatch c]
        ∧ c.retstart = 0
        ∧ c.retmax = 20
        ∧ ∀ a ∈ (runMain "9606" 1 5 (.ok "Homo sapiens" ⟨5, "w", "k"⟩)
            (fun _ => .ok [])).artifacts, artifactSize a ≤ 20 :=
  ⟨⟨by decide, fun c => le_max_right c.retmax 0⟩,
    C10_sample_cap "9606" "Homo sapiens" 1 5 ⟨5, "w", "k"⟩
      (fun _ => .ok []) (by decide)
      (fun c => le_max_right c.retmax 0)⟩

/-- Helper: when filtering leaves something, `mainOutputs` completes
normally and writes the chart file with one row per filtered record. -/
theorem mainOutputs_nonempty (taxid : String) (min_length max_length : Int)
    (fr : FetchResult)
    (h : filterRecords min_length max_length fr.records ≠ []) :
    (mainOutputs taxid min_length max_length fr).outcome = .completed
    ∧ Artifact.chart ("taxid_" ++ taxid ++ "_lengths.png")
        ((filterRecords min_length max_length fr.records).map toReportRow)
        ∈ (mainOutputs taxid min_length max_length fr).artifacts := by
  have hrow : ((filterRecords min_length max_length fr.records).map
      toReportRow).isEmpty = false := by
    simp [List.isEmpty_iff, h]
  refine ⟨?_, ?_⟩ <;> simp [mainOutputs, hrow]

/-- C5 counterexample: a concrete run (one record of length 10, criteria
100..200) whose filtered set is empty. Contrary to the claim, chart
generation is not skipped: the run ends in the uncaught `KeyError` of the
chart step (`sort_values` on the empty, columnless DataFrame), and the
CSV written for the empty set has no header line, so it is not the
well-formed empty table either. -/
theorem C5_counterexample :
    (runMain "9606" 100 200 (.ok "Homo sapiens" ⟨1, "w", "k"⟩)
        (fun _ => .ok [recB])).outcome = .crashedChart
    ∧ Artifact.csvReport "taxid_9606_report.csv" ⟨false, []⟩
        ∈ (runMain "9606" 100 200 (.ok "Homo sapiens" ⟨1, "w", "k"⟩)
            (fun _ => .ok [recB])).artifacts := by
  exact ⟨by decide, by decide⟩

/-- C5 amended: when the filtered set is empty the run still writes the
archive and an empty CSV (but without the header line), does not produce
a chart artifact, and aborts at the chart step instead of skipping it;
when the filtered set is non-empty the run completes and writes the
chart. So the chart file is produced exactly when the filtered set is
non-empty, but via a crash, not a graceful skip. -/
theorem C5_empty_set_behavior (taxid organism : String)
    (min_length max_length : Int) (resp : SearchResponse)
    (fetchO : FetchCall → FetchResponse) (hc : resp.count ≠ 0) :
    (filterRecords min_length max_length
          ((fetchO (activeCall resp.webEnv resp.queryKey 0 20)).recs) = [] →
        (runMain taxid min_length max_length (.ok organism resp)
            fetchO).outcome = .crashedChart
        ∧ Artifact.csvReport ("taxid_" ++ taxid ++ "_report.csv")
            ⟨false, []⟩
            ∈ (runMain taxid min_length max_length (.ok organism resp)
                fetchO).artifacts
        ∧ ∀ p rows, Artifact.chart p rows
            ∉ (runMain taxid min_length max_length (.ok organism resp)
                fetchO).artifacts)
    ∧ (filterRecords min_length max_length
          ((fetchO (activeCall resp.webEnv resp.queryKey 0 20)).recs) ≠ [] →
        (runMain taxid min_length max_length (.ok organism resp)
            fetchO).outcome = .completed
        ∧ Artifact.chart ("taxid_" ++ taxid ++ "_lengths.png")
            ((filterRecords min_length max_length
              ((fetchO (activeCall resp.webEnv resp.queryKey 0 20)).recs)).map
                toReportRow)
            ∈ (runMain taxid min_length max_length (.ok organism resp)
                fetchO).artifacts) := by
  have hrun := runMain_success taxid organism min_length max_length resp
    fetchO hc
  rw [fetch_records_active] at hrun
  constructor
  · intro h
    rw [hrun, mainOutputs_empty _ _ _ _ h]
    exact ⟨rfl, by simp, fun p rows => by simp⟩
  · intro h
    rw [hrun]
    exact mainOutputs_nonempty _ _ _ _ h

/-- Witness for C5 amended: a concrete successful search. -/
theorem C5_empty_set_behavior_witness :
    (⟨1, "w", "k"⟩ : SearchResponse).count ≠ 0
    ∧ ((filterRecords 100 200
            ((((fun _ => FetchResponse.ok [recB]) : FetchCall →
              FetchResponse) (activeCall "w" "k" 0 20)).recs) = [] →
          (runMain "9606" 100 200 (.ok "Homo sapiens" ⟨1, "w", "k"⟩)
              (fun _ => .ok [recB])).outcome = .crashedChart
          ∧ Artifact.csvReport ("taxid_" ++ "9606" ++ "_report.csv")
              ⟨false, []⟩
              ∈ (runMain "9606" 100 200 (.ok "Homo sapiens" ⟨1, "w", "k"⟩)
                  (fun _ => .ok [recB])).artifacts
          ∧ ∀ p rows, Artifact.chart p rows
              ∉ (runMain "9606" 100 200 (.ok "Homo sapiens" ⟨1, "w", "k"⟩)
                  (fun _ => .ok [recB])).artifacts)
        ∧ (filterRecords 100 200
            ((((fun _ => FetchResponse.ok [recB]) : FetchCall →
              FetchResponse) (activeCall "w" "k" 0 20)).recs) ≠ [] →
          (runMain "9606" 100 200 (.ok "Homo sapiens" ⟨1, "w", "k"⟩)
              (fun _ => .ok [recB])).outcome = .completed
          ∧ Artifact.chart ("taxid_" ++ "9606" ++ "_lengths.png")
              ((filterRecords 100 200
                ((((fun _ => FetchResponse.ok [recB]) : FetchCall →
                  FetchResponse) (activeCall "w" "k" 0 20)).recs)).map
                    toReportRow)
              ∈ (runMain "9606" 100 200 (.ok "Homo sapiens" ⟨1, "w", "k"⟩)
                  (fun _ => .ok [recB])).artifacts)) :=
  ⟨by decide,
    C5_empty_set_behavior "9606" "Homo sapiens" 100 200 ⟨1, "w", "k"⟩
      (fun _ => .ok [recB]) (by decide)⟩

/-- C6 counterexample: criteria with `min_length = 5 > 3 = max_length`
supplied to a concrete run. Contrary to the claim, nothing rejects or
flags the criteria before the filter runs: the batch fetch is still
issued and the filter silently yields the empty list, producing an
empty archive. -/
theorem C6_counterexample :
    filterRecords 5 3 [recA] = []
    ∧ (runMain "9606" 5 3 (.ok "Homo sapiens" ⟨1, "w", "k"⟩)
        (fun _ => .ok [recA])).fetchCalls ≠ []
    ∧ Artifact.archive "taxid_9606_sample.gb" []
        ∈ (runMain "9606" 5 3 (.ok "Homo sapiens" ⟨1, "w", "k"⟩)
            (fun _ => .ok [recA])).artifacts := by
  exact ⟨by decide, by decide, by decide⟩

/-- C6 amended: the source performs no validation of the criteria: when
`min_length > max_length` the pipeline still searches, fetches and
filters, the filter silently returns the empty list on every input, the
archive written is empty, and the run then aborts at the chart step
because the filtered set is empty. -/
theorem C6_no_validation (taxid organism : String)
    (min_length max_length : Int) (resp : SearchResponse)
    (fetchO : FetchCall → FetchResponse)
    (hc : resp.count ≠ 0) (hlt : max_length < min_length) :
    (∀ records, filterRecords min_length max_length records = [])
    ∧ (runMain taxid min_length max_length (.ok organism resp)
          fetchO).fetchCalls
        = [RemoteCall.fetchBatch (activeCall resp.webEnv resp.queryKey
            0 20)]
    ∧ Artifact.archive ("taxid_" ++ taxid ++ "_sample.gb") []
        ∈ (runMain taxid min_length max_length (.ok organism resp)
            fetchO).artifacts
    ∧ (runMain taxid min_length max_length (.ok organism resp)
          fetchO).outcome = .crashedChart := by
  have hnil : ∀ records, filterRecords min_length max_length records
      = [] := by
    intro records
    rw [filterRecords, List.filter_eq_nil_iff]
    intro r _
    simp only [inRange, Bool.and_eq_true, decide_eq_true_eq, not_and]
    intro h1 h2
    omega
  have hrun := runMain_success taxid organism min_length max_length resp
    fetchO hc
  rw [fetch_records_active] at hrun
  rw [hrun, mainOutputs_empty _ _ _ _ (hnil _)]
  exact ⟨hnil, rfl, by simp, rfl⟩

/-- Witness for C6 amended: concrete criteria 5 > 3 and a concrete run. -/
theorem C6_no_validation_witness :
    ((⟨1, "w", "k"⟩ : SearchResponse).count ≠ 0 ∧ (3 : Int) < 5)
    ∧ ((∀ records, filterRecords 5 3 records = [])
      ∧ (runMain "9606" 5 3 (.ok "Homo sapiens" ⟨1, "w", "k"⟩)
            (fun _ => .ok [recA])).fetchCalls
          = [RemoteCall.fetchBatch (activeCall "w" "k" 0 20)]
      ∧ Artifact.archive ("taxid_" ++ "9606" ++ "_sample.gb") []
          ∈ (runMain "9606" 5 3 (.ok "Homo sapiens" ⟨1, "w", "k"⟩)
              (fun _ => .ok [recA])).artifacts
      ∧ (runMain "9606" 5 3 (.ok "Homo sapiens" ⟨1, "w", "k"⟩)
            (fun _ => .ok [recA])).outcome = .crashedChart) :=
  ⟨⟨by decide, by decide⟩,
    C6_no_validation "9606" "Homo sapiens" 5 3 ⟨1, "w", "k"⟩
      (fun _ => .ok [recA]) (by decide) (by decide)⟩

end S26827
